import Mathlib

/-!
# Verification of the yral-ai-chat message-delivery governance subsystem

Shallow embedding of the Rust sources of `dolr-ai/yral-ai-chat`:

* `src/middleware/rate_limit.rs` — dual-window token-bucket rate limiter
  (`TokenBucket`, `Buckets`, `RateLimitState`, `RateLimitService::call`).
  Float token counts are modelled as rationals, `Instant` timestamps as
  rational seconds.
* `src/services/websocket.rs` — `WsManager` (per-user connection registry,
  fan-out).  The `DashMap<String, Vec<Connection>>` is modelled as an
  association list; the "send succeeded" outcome of an unbounded mpsc
  channel is modelled by a boolean `alive` flag on each connection.
* `src/models/requests.rs` — `SendMessageRequest::validate_content`.
* `src/routes/chat.rs` — the `send_message` orchestration, with the
  database message table modelled as a list of rows (the repository
  queries are translated from
  `server-rs/src/db/repositories/message_repository.rs`) and the remote
  AI / transcription backends as oracle values supplied in an
  environment record.
-/

namespace YralChat

/-! ## Token bucket (src/middleware/rate_limit.rs) -/

/-- `TokenBucket` from rate_limit.rs: `tokens`, `capacity`, `refill_rate`
(tokens per second) and `last_refill` (timestamp, in seconds). -/
structure TokenBucket where
  tokens : ℚ
  capacity : ℚ
  refill_rate : ℚ
  last_refill : ℚ
deriving DecidableEq, Repr

/-- `TokenBucket::new`: starts full. -/
def TokenBucket.new (capacity refill_rate now : ℚ) : TokenBucket :=
  { tokens := capacity, capacity := capacity, refill_rate := refill_rate,
    last_refill := now }

/-- `TokenBucket::refill`: add `elapsed * refill_rate`, capped at `capacity`.
`Instant::duration_since` saturates at zero, hence the `max _ 0`. -/
def TokenBucket.refill (b : TokenBucket) (now : ℚ) : TokenBucket :=
  { b with
    tokens := min (b.tokens + max (now - b.last_refill) 0 * b.refill_rate) b.capacity,
    last_refill := now }

/-- `TokenBucket::consume`: refill, then take one token if at least one is
available.  Returns the new bucket and whether consumption succeeded. -/
def TokenBucket.consume (b : TokenBucket) (now : ℚ) : TokenBucket × Bool :=
  let b := b.refill now
  if 1 ≤ b.tokens then ({ b with tokens := b.tokens - 1 }, true) else (b, false)

/-- `TokenBucket::retry_after`: `ceil((1 - tokens)/refill_rate) + 1` when the
bucket cannot serve a token, `0` otherwise. -/
def TokenBucket.retry_after (b : TokenBucket) : ℕ :=
  if 1 ≤ b.tokens then 0
  else (⌈(1 - b.tokens) / b.refill_rate⌉).toNat + 1

/-- `TokenBucket::remaining`: `tokens.max(0.0) as u64` (truncation towards
zero of a non-negative float, i.e. the floor). -/
def TokenBucket.remaining (b : TokenBucket) : ℕ :=
  (⌊max b.tokens 0⌋).toNat

/-- The invariant the spec states for every bucket, plus non-negativity of
the refill rate (true of both windows: `per_minute/60`, `per_hour/3600`). -/
def TokenBucket.WF (b : TokenBucket) : Prop :=
  0 ≤ b.tokens ∧ b.tokens ≤ b.capacity ∧ 0 ≤ b.refill_rate

instance (b : TokenBucket) : Decidable b.WF := by
  unfold TokenBucket.WF; infer_instance

/-- `Buckets` from rate_limit.rs: the minute and hour windows of one
identifier. -/
structure Buckets where
  minute : TokenBucket
  hour : TokenBucket
deriving DecidableEq, Repr

/-- `RateLimitState::get_or_create`'s `or_insert_with` closure: fresh bucket
pair for an identifier (`per_minute/60` and `per_hour/3600` tokens per
second). -/
def Buckets.new (per_minute per_hour : ℕ) (now : ℚ) : Buckets :=
  { minute := TokenBucket.new per_minute (per_minute / 60) now,
    hour := TokenBucket.new per_hour (per_hour / 3600) now }

/-- Outcome of one admission decision. -/
inductive AdmissionResult where
  | allow (remainingMinute remainingHour : ℕ)
  | deny (retryAfterSeconds : ℕ) (windowName : String) (limit : ℕ)
deriving DecidableEq, Repr

/-- The admission core of `RateLimitService::call` (rate_limit.rs lines
183–209): consume from the minute bucket, then from the hour bucket; on an
hour denial refund the minute token (`entry.minute.tokens += 1.0`). -/
def Buckets.admission (b : Buckets) (per_minute per_hour : ℕ) (now : ℚ) :
    AdmissionResult × Buckets :=
  let m := b.minute.consume now
  if m.2 then
    let h := b.hour.consume now
    if h.2 then
      (.allow m.1.remaining h.1.remaining, { minute := m.1, hour := h.1 })
    else
      (.deny h.1.retry_after "per_hour" per_hour,
       { minute := { m.1 with tokens := m.1.tokens + 1 }, hour := h.1 })
  else
    (.deny m.1.retry_after "per_minute" per_minute,
     { minute := m.1, hour := b.hour })

/-- A sequence of admission calls at the given times against one
identifier's bucket pair. -/
def admissionSeq (per_minute per_hour : ℕ) (times : List ℚ) (b : Buckets) :
    List AdmissionResult × Buckets :=
  match times with
  | [] => ([], b)
  | t :: ts =>
    let r := b.admission per_minute per_hour t
    let rest := admissionSeq per_minute per_hour ts r.2
    (r.1 :: rest.1, rest.2)

/-! ## Rate-limit middleware state and `call` -/

/-- Association-list lookup (first entry wins, like a map lookup). -/
def lookupKey {α : Type} (tbl : List (String × α)) (k : String) : Option α :=
  match tbl with
  | [] => none
  | p :: ps => if p.1 = k then some p.2 else lookupKey ps k

/-- Replace the value of every entry with the given key. -/
def setKey {α : Type} (tbl : List (String × α)) (k : String) (v : α) :
    List (String × α) :=
  tbl.map (fun p => if p.1 = k then (k, v) else p)

/-- Insert-or-update, matching `DashMap::entry().or_insert_with` followed by
an in-place mutation. -/
def writeKey {α : Type} (tbl : List (String × α)) (k : String) (v : α) :
    List (String × α) :=
  if (lookupKey tbl k).isSome then setKey tbl k v else (k, v) :: tbl

/-- Rust `str::to_lowercase`, modelled characterwise. -/
def lowercase (s : String) : String :=
  String.mk (s.data.map Char.toLower)

/-- Rust `str::trim`, modelled on the character list: drop whitespace from
both ends. -/
def trimmed (s : String) : String :=
  String.mk (((s.data.dropWhile Char.isWhitespace).reverse.dropWhile
    Char.isWhitespace).reverse)

instance {e a : Type} [DecidableEq e] [DecidableEq a] :
    DecidableEq (Except e a) := fun x y =>
  match x, y with
  | .error e1, .error e2 =>
    if h : e1 = e2 then isTrue (by rw [h])
    else isFalse (by intro hh; injection hh; exact h (by assumption))
  | .error _, .ok _ => isFalse (by intro hh; exact Except.noConfusion hh)
  | .ok _, .error _ => isFalse (by intro hh; exact Except.noConfusion hh)
  | .ok a1, .ok a2 =>
    if h : a1 = a2 then isTrue (by rw [h])
    else isFalse (by intro hh; injection hh; exact h (by assumption))

/-- `RateLimitState`: the bucket table, the two configured limits, and the
shared "last swept at" marker (`AtomicU64`, seconds). -/
structure RateLimitState where
  buckets : List (String × Buckets)
  per_minute : ℕ
  per_hour : ℕ
  last_cleanup : ℕ
deriving DecidableEq, Repr

def RateLimitState.new (per_minute per_hour : ℕ) : RateLimitState :=
  { buckets := [], per_minute := per_minute, per_hour := per_hour,
    last_cleanup := 0 }

/-- `RateLimitState::get_or_create`: the existing pair, or a fresh one. -/
def RateLimitState.get_or_create (s : RateLimitState) (key : String)
    (now : ℚ) : Buckets :=
  match lookupKey s.buckets key with
  | some b => b
  | none => Buckets.new s.per_minute s.per_hour now

/-- `RateLimitState::cleanup` (rate_limit.rs lines 90–104).  The code
computes its clock reading as
`Instant::now().duration_since(Instant::now() - Duration::from_secs(1)).as_secs()`
— the duration between two back-to-back `Instant::now()` calls shifted by
one second, whose whole-second part is the constant `1` — so `now_secs`
below is `1`, not wall-clock time.  `now` is the wall clock used for the
retention threshold (`Instant::now() - 3600 s`). -/
def RateLimitState.cleanup (s : RateLimitState) (now : ℚ) : RateLimitState :=
  let now_secs : ℕ := 1
  if now_secs - s.last_cleanup < 300 then s
  else
    { s with
      last_cleanup := now_secs,
      buckets := s.buckets.filter (fun p =>
        decide (now - 3600 < p.2.minute.last_refill) ||
        decide (now - 3600 < p.2.hour.last_refill)) }

/-- `EXCLUDED_PATHS` from rate_limit.rs. -/
def EXCLUDED_PATHS : List String := ["/", "/health", "/status"]

/-- The inbound request as seen by the middleware: path and the
`X-Forwarded-For` header, when present and readable. -/
structure RequestModel where
  path : String
  xForwardedFor : Option String
deriving DecidableEq, Repr

/-- Identifier derivation in `RateLimitService::call`: first entry of
`X-Forwarded-For`, trimmed, else `"unknown"`, prefixed with `"ip:"`. -/
def identifierOf (req : RequestModel) : String :=
  match req.xForwardedFor with
  | some v => "ip:" ++ trimmed ((v.splitOn ",").headD "")
  | none => "ip:unknown"

/-- A boundary response: status code, headers in insertion order, and — for
429 responses — the JSON body fields of `rate_limit_response`. -/
structure DenyBody where
  error : String
  message : String
  retry_after : ℕ
  limit_type : String
  limit : ℕ
deriving DecidableEq, Repr

structure ResponseModel where
  status : ℕ
  headers : List (String × String)
  denyBody : Option DenyBody
deriving DecidableEq, Repr

/-- `rate_limit_response` (rate_limit.rs lines 237–258): HTTP 429 with the
JSON body and a `Retry-After` header. -/
def rate_limit_response (retry_after : ℕ) (limit_type : String) (limit : ℕ) :
    ResponseModel :=
  { status := 429,
    headers := [("Retry-After", toString retry_after)],
    denyBody := some
      { error := "rate_limit_exceeded",
        message := "Too many requests. Try again in " ++ toString retry_after
          ++ " seconds.",
        retry_after := retry_after,
        limit_type := limit_type,
        limit := limit } }

/-- The admission decision `RateLimitService::call` makes for a
non-excluded request: cleanup first, then the admission decision against the caller's
(possibly fresh) bucket pair. -/
def RateLimitService.admissionOf (s : RateLimitState) (req : RequestModel)
    (now : ℚ) : AdmissionResult × Buckets :=
  ((s.cleanup now).get_or_create (identifierOf req) now).admission
    s.per_minute s.per_hour now

/-- `RateLimitService::call` (rate_limit.rs lines 159–234).  `inner` is the
response of the wrapped service.  Returns the outgoing response and the new
middleware state. -/
def RateLimitService.call (s : RateLimitState) (req : RequestModel)
    (inner : ResponseModel) (now : ℚ) : ResponseModel × RateLimitState :=
  if req.path ∈ EXCLUDED_PATHS then (inner, s)
  else
    let s1 := s.cleanup now
    let key := identifierOf req
    let rb := RateLimitService.admissionOf s req now
    let s2 := { s1 with buckets := writeKey s1.buckets key rb.2 }
    match rb.1 with
    | .deny r w l => (rate_limit_response r w l, s2)
    | .allow rm rh =>
      ({ inner with
          headers := inner.headers ++
            [("X-RateLimit-Limit-Minute", toString s1.per_minute),
             ("X-RateLimit-Limit-Hour", toString s1.per_hour),
             ("X-RateLimit-Remaining-Minute", toString rm),
             ("X-RateLimit-Remaining-Hour", toString rh)] }, s2)

/-! ## WsManager (src/services/websocket.rs) -/

/-- A live connection: its id (from the global atomic counter) and whether
its unbounded mpsc sender still delivers (`send(..).is_ok()`), i.e. whether
the receiving end is still alive. -/
structure Connection where
  id : ℕ
  alive : Bool
deriving DecidableEq, Repr

/-- `WsManager`: `DashMap<String, Vec<Connection>>` as an association
list. -/
structure WsManager where
  connections : List (String × List Connection)
deriving DecidableEq, Repr

/-- `WsManager::disconnect`: drop that connection id from the user's vector;
if the vector becomes empty, remove the user's entry entirely. -/
def WsManager.disconnect (m : WsManager) (user_id : String) (conn_id : ℕ) :
    WsManager :=
  match lookupKey m.connections user_id with
  | none => m
  | some conns =>
    let conns2 := conns.filter (fun c => decide (c.id ≠ conn_id))
    if conns2.isEmpty then
      { connections := m.connections.filter (fun p => decide (p.1 ≠ user_id)) }
    else
      { connections := setKey m.connections user_id conns2 }

/-- `WsManager::send_to_user`: deliver to every connection of the user,
pruning the ones whose channel is dead (`retain` on `send(..).is_ok()`);
remove the entry if nothing is left.  Returns the new manager together with
the ids the event was delivered to.  Absent user: no-op. -/
def WsManager.send_to_user (m : WsManager) (user_id : String) :
    WsManager × List ℕ :=
  match lookupKey m.connections user_id with
  | none => (m, [])
  | some conns =>
    let live := conns.filter (fun c => c.alive)
    let m2 :=
      if live.isEmpty then
        { connections :=
            m.connections.filter (fun p => decide (p.1 ≠ user_id)) }
      else { connections := setKey m.connections user_id live }
    (m2, live.map (fun c => c.id))

/-! ## Message model and repository queries
(src/models/entities.rs, server-rs/src/db/repositories/message_repository.rs) -/

inductive MessageType where
  | text
  | multimodal
  | image
  | audio
deriving DecidableEq, Repr

/-- `MessageType::from_str`: lowercases, then matches the four names. -/
def MessageType.from_str (s : String) : Option MessageType :=
  match lowercase s with
  | "text" => some .text
  | "multimodal" => some .multimodal
  | "image" => some .image
  | "audio" => some .audio
  | _ => none

inductive MessageRole where
  | user
  | assistant
deriving DecidableEq, Repr

/-- A row of the `messages` table.  `created_at` is stored by the database
as a second-precision timestamp; it is modelled as a natural number with
the same ordering. -/
structure Message where
  id : String
  conversation_id : String
  role : MessageRole
  content : Option String
  message_type : MessageType
  media_urls : List String
  audio_url : Option String
  audio_duration_seconds : Option Int
  token_count : Option Int
  client_message_id : Option String
  created_at : ℕ
deriving DecidableEq, Repr

/-- `MessageRepository::get_by_id`: `WHERE id = ?`, `fetch_optional` — the
first row with that id. -/
def get_by_id (msgs : List Message) (mid : String) : Option Message :=
  msgs.find? (fun m => decide (m.id = mid))

/-- `MessageRepository::get_by_client_id`:
`WHERE conversation_id = ? AND client_message_id = ?`, `fetch_optional`. -/
def get_by_client_id (msgs : List Message) (conversation_id cid : String) :
    Option Message :=
  msgs.find? (fun m =>
    decide (m.conversation_id = conversation_id ∧
            m.client_message_id = some cid))

/-- `ORDER BY created_at ASC LIMIT 1` over a candidate list: first row with
the minimal `created_at`. -/
def minByCreated (l : List Message) : Option Message :=
  l.foldl (fun acc m =>
    match acc with
    | none => some m
    | some a => if m.created_at < a.created_at then some m else acc) none

/-- `MessageRepository::get_assistant_reply`: the earliest assistant row of
the same conversation with `created_at >= ?` and a different id. -/
def get_assistant_reply (msgs : List Message) (mid : String) :
    Option Message :=
  match get_by_id msgs mid with
  | none => none
  | some msg =>
    minByCreated (msgs.filter (fun m =>
      decide (m.conversation_id = msg.conversation_id ∧
              m.role = MessageRole.assistant ∧
              msg.created_at ≤ m.created_at ∧
              m.id ≠ mid)))

/-- Insertion sort step for descending `created_at` (ties keep the earlier
row first, a concrete choice for the unspecified SQL tie order). -/
def insertDesc (m : Message) : List Message → List Message
  | [] => [m]
  | x :: xs =>
    if x.created_at < m.created_at then m :: x :: xs
    else x :: insertDesc m xs

/-- `ORDER BY created_at DESC`. -/
def sortByCreatedDesc : List Message → List Message
  | [] => []
  | x :: xs => insertDesc x (sortByCreatedDesc xs)

/-- `MessageRepository::get_recent_for_context`: newest `limit` rows of the
conversation, returned oldest first. -/
def get_recent_for_context (msgs : List Message) (conversation_id : String)
    (limit : ℕ) : List Message :=
  ((sortByCreatedDesc
      (msgs.filter (fun m => decide (m.conversation_id = conversation_id)))
    ).take limit).reverse

/-! ## Send-message request validation (src/models/requests.rs) -/

/-- `SendMessageRequest`. -/
structure SendMessageRequest where
  message_type : String
  content : Option String
  media_urls : Option (List String)
  audio_url : Option String
  audio_duration_seconds : Option Int
  client_message_id : Option String
deriving DecidableEq, Repr

def SendMessageRequest.parsed_message_type (r : SendMessageRequest) :
    Option MessageType :=
  MessageType.from_str r.message_type

/-- `SendMessageRequest::validate_content` (requests.rs lines 41–76).
`is_empty()` on the trimmed string and on the URL vector, and `is_none()`
on the audio reference, are written as equality with the empty value. -/
def SendMessageRequest.validate_content (r : SendMessageRequest) :
    Except String Unit :=
  match r.parsed_message_type with
  | none => .error "Invalid message type"
  | some msg_type =>
    let content := trimmed (r.content.getD "")
    let media_urls := r.media_urls.getD []
    match msg_type with
    | .text =>
      if content = "" then .error "content is required for text messages"
      else .ok ()
    | .image =>
      if media_urls = [] then
        .error "media_urls is required for image messages"
      else if media_urls.length > 10 then .error "Too many media URLs (max 10)"
      else .ok ()
    | .multimodal =>
      if media_urls = [] then
        .error "media_urls is required for multimodal messages"
      else if media_urls.length > 10 then .error "Too many media URLs (max 10)"
      else .ok ()
    | .audio =>
      if r.audio_url = none then
        .error "audio_url is required for audio messages"
      else .ok ()

/-- The spec's wording of the content rules (§4.3 step 1): non-empty trimmed
content for text, 1–10 media URLs for image/multimodal, a present audio
reference for audio.  Stated separately from `validate_content` so the two
can be compared. -/
def specContentRules (r : SendMessageRequest) (mt : MessageType) : Prop :=
  match mt with
  | .text => ¬(trimmed (r.content.getD "") = "")
  | .image => 1 ≤ (r.media_urls.getD []).length ∧ (r.media_urls.getD []).length ≤ 10
  | .multimodal => 1 ≤ (r.media_urls.getD []).length ∧ (r.media_urls.getD []).length ≤ 10
  | .audio => r.audio_url.isSome

/-! ## The send_message orchestration (src/routes/chat.rs lines 251–600) -/

inductive InfluencerStatus where
  | active
  | coming_soon
  | discontinued
deriving DecidableEq, Repr

/-- The fields of `AIInfluencer` the orchestration reads. -/
structure Influencer where
  id : String
  display_name : String
  avatar_url : Option String
  system_instructions : String
  is_active : InfluencerStatus
  is_nsfw : Bool
deriving DecidableEq, Repr

/-- The fields of `Conversation` the orchestration reads; `memories` is the
`metadata["memories"]` map (empty when absent or unparsable). -/
structure Conversation where
  id : String
  user_id : String
  influencer_id : String
  memories : List (String × String)
deriving DecidableEq, Repr

/-- The database tables the orchestration touches. -/
structure World where
  messages : List Message
  conversations : List Conversation
  influencers : List Influencer
deriving DecidableEq, Repr

/-- The per-call environment: the authenticated caller, fresh row ids and
timestamps for the two inserts, and the outcomes of the remote calls
(generation backends, transcription) together with the presigned-URL
resolver.  These are oracles: the orchestration only branches on them. -/
structure SendEnv where
  userId : String
  freshUserMsgId : String
  freshAssistantMsgId : String
  nowUser : ℕ
  nowAssistant : ℕ
  openrouterConfigured : Bool
  openrouterResult : Except String (String × Int)
  geminiResult : Except String (String × Int)
  transcription : Except String String
  presign : String → String

/-- `FALLBACK_ERROR_MESSAGE` from chat.rs. -/
def FALLBACK_ERROR_MESSAGE : String :=
  "I\x27m having trouble generating a response right now. Please try again."

inductive SendOutcome where
  | badRequest (msg : String)
  | notFound (msg : String)
  | forbidden (msg : String)
  | ok (status : ℕ) (user_message assistant_message : Message)
deriving DecidableEq, Repr

/-- What one `send_message` call did: its response, the message table
afterwards, the prompt handed to the generation backend (`none` when
generation was not invoked), the number of `tokio::spawn`ed background
continuations, and the number of typing-indicator events published. -/
structure SendResult where
  outcome : SendOutcome
  messages : List Message
  aiCall : Option (String × String × List Message × Option (List String))
  backgroundTasks : ℕ
  typingEvents : ℕ
deriving DecidableEq, Repr

/-- Resolve a storage key to a presigned URL, leaving full URLs alone
(`generate_presigned_urls_batch` is only consulted for non-`http(s)`
references, and lookups fall back to the original string). -/
def presignIfKey (env : SendEnv) (u : String) : String :=
  if u.startsWith "http://" || u.startsWith "https://" then u
  else env.presign u

/-- The dedup probe of chat.rs lines 280–295: an existing user row with the
client id, together with an already-existing assistant reply. -/
def dedupHit (msgs : List Message) (conversation_id cid : String) :
    Option (Message × Message) :=
  match get_by_client_id msgs conversation_id cid with
  | none => none
  | some existing =>
    (get_assistant_reply msgs existing.id).map (fun r => (existing, r))

/-- The generation backend `send_message` selects: an NSFW influencer routes
to OpenRouter when configured, else Gemini. -/
def selectedAiResult (env : SendEnv) (influencer : Influencer) :
    Except String (String × Int) :=
  if influencer.is_nsfw && env.openrouterConfigured then env.openrouterResult
  else env.geminiResult

/-- The `**MEMORIES:**` suffix appended to the system instructions. -/
def memoriesSuffix (memories : List (String × String)) : String :=
  if memories.isEmpty then ""
  else "\n\n**MEMORIES:**\n" ++
    String.join (memories.map (fun kv => "- " ++ kv.1 ++ ": " ++ kv.2 ++ "\n"))

/-- The user `Message` row `send_message` inserts: audio content is the
best-effort transcription (chat.rs lines 310–340). -/
def mkUserMessage (env : SendEnv) (conversation_id : String)
    (body : SendMessageRequest) (message_type : MessageType) : Message :=
  let transcribed_content : Option String :=
    if message_type = MessageType.audio then
      match body.audio_url with
      | some _ =>
        match env.transcription with
        | .ok text => some ("[Transcribed: " ++ text ++ "]")
        | .error _ => some "[Audio message - transcription unavailable]"
      | none => body.content
    else body.content
  { id := env.freshUserMsgId, conversation_id := conversation_id,
    role := .user, content := transcribed_content,
    message_type := message_type, media_urls := body.media_urls.getD [],
    audio_url := body.audio_url,
    audio_duration_seconds := body.audio_duration_seconds,
    token_count := none, client_message_id := body.client_message_id,
    created_at := env.nowUser }

/-- The assistant `Message` row `send_message` inserts (chat.rs lines
480–493). -/
def mkAssistantMessage (env : SendEnv) (conversation_id : String)
    (text : String) (tokens : Int) : Message :=
  { id := env.freshAssistantMsgId, conversation_id := conversation_id,
    role := .assistant, content := some text, message_type := .text,
    media_urls := [], audio_url := none, audio_duration_seconds := none,
    token_count := some tokens, client_message_id := none,
    created_at := env.nowAssistant }

/-- `send_message` (chat.rs lines 251–600), step by step: validate, resolve
and authorize the conversation, dedup, resolve the influencer and its
availability, transcribe audio (best effort), persist the user row, build
the bounded context, generate with fallback, persist the assistant row,
spawn the two background continuations, and answer 200 or 503. -/
def send_message (env : SendEnv) (w : World) (conversation_id : String)
    (body : SendMessageRequest) : SendResult :=
  match body.validate_content with
  | .error e =>
    { outcome := .badRequest e, messages := w.messages, aiCall := none,
      backgroundTasks := 0, typingEvents := 0 }
  | .ok _ =>
  match body.parsed_message_type with
  | none =>
    { outcome := .badRequest "Invalid message type", messages := w.messages,
      aiCall := none, backgroundTasks := 0, typingEvents := 0 }
  | some message_type =>
  match w.conversations.find? (fun c => decide (c.id = conversation_id)) with
  | none =>
    { outcome := .notFound "Conversation not found", messages := w.messages,
      aiCall := none, backgroundTasks := 0, typingEvents := 0 }
  | some conv =>
  if conv.user_id ≠ env.userId then
    { outcome := .forbidden "Not your conversation", messages := w.messages,
      aiCall := none, backgroundTasks := 0, typingEvents := 0 }
  else
  match body.client_message_id.bind
      (fun cid => dedupHit w.messages conversation_id cid) with
  | some (existing, reply) =>
    { outcome := .ok 200 existing reply, messages := w.messages,
      aiCall := none, backgroundTasks := 0, typingEvents := 0 }
  | none =>
  match w.influencers.find? (fun i => decide (i.id = conv.influencer_id)) with
  | none =>
    { outcome := .notFound "Influencer not found", messages := w.messages,
      aiCall := none, backgroundTasks := 0, typingEvents := 0 }
  | some influencer =>
  if influencer.is_active = InfluencerStatus.discontinued then
    { outcome :=
        .forbidden "This bot has been deleted and can no longer receive messages.",
      messages := w.messages, aiCall := none, backgroundTasks := 0,
      typingEvents := 0 }
  else
  let user_message : Message :=
    mkUserMessage env conversation_id body message_type
  let msgs1 := w.messages ++ [user_message]
  let all_recent := get_recent_for_context msgs1 conversation_id 11
  let history :=
    (((all_recent.filter (fun m => decide (m.id ≠ user_message.id))
      ).reverse.take 10).reverse).map (fun m =>
        { m with media_urls := m.media_urls.map (presignIfKey env),
                 audio_url := m.audio_url.map (presignIfKey env) })
  let enhanced_instructions :=
    influencer.system_instructions ++ memoriesSuffix conv.memories
  let media_urls_for_ai : Option (List String) :=
    if message_type = MessageType.image ∨ message_type = MessageType.multimodal
    then body.media_urls.map (fun urls => urls.map (presignIfKey env))
    else none
  let ai_input :=
    ((user_message.content.orElse (fun _ => body.content)).getD
      "What do you think?")
  let ai_result := selectedAiResult env influencer
  let gen :=
    match ai_result with
    | .ok (text, tokens) => (text, tokens, false)
    | .error _ => (FALLBACK_ERROR_MESSAGE, 0, true)
  let assistant_message : Message :=
    mkAssistantMessage env conversation_id gen.1 gen.2.1
  { outcome := .ok (if gen.2.2 then 503 else 200) user_message assistant_message,
    messages := msgs1 ++ [assistant_message],
    aiCall := some (ai_input, enhanced_instructions, history, media_urls_for_ai),
    backgroundTasks := 2, typingEvents := 2 }

/-! ## Push-notification preview truncation (chat.rs lines 569–574) -/

/-- Byte length of a string viewed as its character sequence (Rust
`String::len`). -/
def byteLen (s : List Char) : ℕ :=
  (s.map Char.utf8Size).sum

/-- The byte-slice `&s[..n]` of Rust: the characters making up exactly the
first `n` bytes, or `none` (a panic) when `n` falls inside a multi-byte
character. -/
def takeBytes : List Char → ℕ → Option (List Char)
  | _, 0 => some []
  | [], _ + 1 => none
  | c :: cs, n + 1 =>
    if c.utf8Size ≤ n + 1 then
      (takeBytes cs (n + 1 - c.utf8Size)).map (fun p => c :: p)
    else none

/-- The push-notification preview: content unchanged when at most 100 bytes,
otherwise `&content[..100]` followed by `"..."`.  `none` models the panic of
the byte slice on a non-character boundary. -/
def truncatePreview (s : List Char) : Option (List Char) :=
  if byteLen s > 100 then
    (takeBytes s 100).map (fun p => p ++ ['.', '.', '.'])
  else some s

/-! ## Lemmas about the token bucket -/

theorem consume_spec (b : TokenBucket) (now : ℚ) :
    b.consume now =
      if 1 ≤ (b.refill now).tokens
        then ({ b.refill now with tokens := (b.refill now).tokens - 1 }, true)
        else (b.refill now, false) := rfl

theorem refill_tokens_ge (b : TokenBucket) (now : ℚ)
    (hc : b.tokens ≤ b.capacity) (hr : 0 ≤ b.refill_rate) :
    b.tokens ≤ (b.refill now).tokens := by
  unfold TokenBucket.refill
  exact le_min
    (le_add_of_nonneg_right (mul_nonneg (le_max_right _ 0) hr)) hc

theorem remaining_mono {a b : TokenBucket} (h : a.tokens ≤ b.tokens) :
    a.remaining ≤ b.remaining := by
  unfold TokenBucket.remaining
  exact Int.toNat_le_toNat (Int.floor_le_floor (max_le_max h le_rfl))

theorem refill_WF (b : TokenBucket) (now : ℚ) (h : b.WF) :
    (b.refill now).WF := by
  obtain ⟨h0, hc, hr⟩ := h
  refine ⟨?_, ?_, hr⟩
  · exact le_min (add_nonneg h0 (mul_nonneg (le_max_right _ 0) hr))
      (h0.trans hc)
  · exact min_le_right _ _

theorem consume_WF (b : TokenBucket) (now : ℚ) (h : b.WF) :
    ((b.consume now).1).WF := by
  obtain ⟨h0, hc, hr⟩ := refill_WF b now h
  rw [consume_spec]
  split_ifs with h1
  · exact ⟨by dsimp only; linarith, by dsimp only; linarith, hr⟩
  · exact ⟨h0, hc, hr⟩

/-- `Buckets.admission` with both consumptions unfolded. -/
theorem admission_spec (b : Buckets) (pm ph : ℕ) (now : ℚ) :
    b.admission pm ph now =
      if 1 ≤ (b.minute.refill now).tokens then
        (if 1 ≤ (b.hour.refill now).tokens then
          (.allow
             ({ b.minute.refill now with
                tokens := (b.minute.refill now).tokens - 1 }).remaining
             ({ b.hour.refill now with
                tokens := (b.hour.refill now).tokens - 1 }).remaining,
           { minute := { b.minute.refill now with
               tokens := (b.minute.refill now).tokens - 1 },
             hour := { b.hour.refill now with
               tokens := (b.hour.refill now).tokens - 1 } })
        else
          (.deny (b.hour.refill now).retry_after "per_hour" ph,
           { minute := { b.minute.refill now with
               tokens := (b.minute.refill now).tokens - 1 + 1 },
             hour := b.hour.refill now }))
      else
        (.deny (b.minute.refill now).retry_after "per_minute" pm,
         { minute := b.minute.refill now, hour := b.hour }) := by
  unfold Buckets.admission
  rw [consume_spec, consume_spec]
  by_cases h1 : 1 ≤ (b.minute.refill now).tokens
  · rw [if_pos h1, if_pos h1]
    by_cases h2 : 1 ≤ (b.hour.refill now).tokens
    · rw [if_pos h2, if_pos h2]; rfl
    · rw [if_neg h2, if_neg h2]; rfl
  · rw [if_neg h1, if_neg h1]; rfl

/-- C1.  For every identifier and every admission call denied on the hour
window, the minute-window remaining count observed after the call is not
lower than the one observed before: the consumed minute token is refunded
(rate_limit.rs lines 196–202). -/
theorem hour_denial_refunds_minute (b : Buckets) (pm ph : ℕ) (now : ℚ)
    (r l : ℕ) (hwf : b.minute.WF)
    (hd : (b.admission pm ph now).1 = .deny r "per_hour" l) :
    b.minute.remaining ≤ ((b.admission pm ph now).2).minute.remaining := by
  obtain ⟨h0, hc, hr⟩ := hwf
  rw [admission_spec] at hd ⊢
  by_cases h1 : 1 ≤ (b.minute.refill now).tokens
  · rw [if_pos h1] at hd ⊢
    by_cases h2 : 1 ≤ (b.hour.refill now).tokens
    · rw [if_pos h2] at hd
      simp at hd
    · rw [if_neg h2] at hd ⊢
      apply remaining_mono
      have := refill_tokens_ge b.minute now hc hr
      dsimp only
      linarith
  · rw [if_neg h1] at hd
    simp at hd

/-- C1 witness: an hour-denied call at a concrete state (minute full, hour
empty); the minute remaining count does not drop. -/
theorem hour_denial_refunds_minute_witness :
    (Buckets.mk ⟨5, 5, 5/60, 0⟩ ⟨1/2, 10, 1/100, 0⟩).minute.WF ∧
    ((Buckets.mk ⟨5, 5, 5/60, 0⟩ ⟨1/2, 10, 1/100, 0⟩).admission 5 10 0).1
      = .deny 51 "per_hour" 10 ∧
    (Buckets.mk ⟨5, 5, 5/60, 0⟩ ⟨1/2, 10, 1/100, 0⟩).minute.remaining ≤
      (((Buckets.mk ⟨5, 5, 5/60, 0⟩ ⟨1/2, 10, 1/100, 0⟩).admission 5 10 0).2).minute.remaining := by
  refine ⟨by constructor <;> norm_num [TokenBucket.WF], ?_, ?_⟩
  · norm_num [Buckets.admission, TokenBucket.consume, TokenBucket.refill,
      TokenBucket.retry_after, TokenBucket.remaining] <;> decide
  · exact hour_denial_refunds_minute _ 5 10 0 51 10
      (by constructor <;> norm_num [TokenBucket.WF])
      (by norm_num [Buckets.admission, TokenBucket.consume, TokenBucket.refill,
        TokenBucket.retry_after, TokenBucket.remaining] <;> decide)

/-- C4.  `0 ≤ tokens ≤ capacity` holds at bucket creation and is preserved
by every refill, every consume, and by the whole admission step including
the per-hour-denial refund of a minute token. -/
theorem bucket_invariant (c r now t : ℚ) (b : TokenBucket) (bs : Buckets)
    (pm ph : ℕ) :
    (0 ≤ c → 0 ≤ r → (TokenBucket.new c r now).WF)
    ∧ (b.WF → (b.refill t).WF)
    ∧ (b.WF → ((b.consume t).1).WF)
    ∧ (bs.minute.WF → bs.hour.WF →
        ((bs.admission pm ph t).2.minute.WF ∧ (bs.admission pm ph t).2.hour.WF)) := by
  refine ⟨fun hc hr => ⟨hc, le_refl _, hr⟩,
          fun h => refill_WF b t h,
          fun h => consume_WF b t h, fun hm hh => ?_⟩
  have hmc : ((bs.minute.consume t).1).WF := consume_WF bs.minute t hm
  have hhc : ((bs.hour.consume t).1).WF := consume_WF bs.hour t hh
  have hmr : ((bs.minute.refill t)).WF := refill_WF bs.minute t hm
  have hhr : ((bs.hour.refill t)).WF := refill_WF bs.hour t hh
  rw [admission_spec]
  by_cases h1 : 1 ≤ (bs.minute.refill t).tokens
  · rw [if_pos h1]
    by_cases h2 : 1 ≤ (bs.hour.refill t).tokens
    · rw [if_pos h2]
      constructor
      · have : ({ bs.minute.refill t with
            tokens := (bs.minute.refill t).tokens - 1 }) = (bs.minute.consume t).1 := by
          rw [consume_spec, if_pos h1]
        rw [this]; exact hmc
      · have : ({ bs.hour.refill t with
            tokens := (bs.hour.refill t).tokens - 1 }) = (bs.hour.consume t).1 := by
          rw [consume_spec, if_pos h2]
        rw [this]; exact hhc
    · rw [if_neg h2]
      obtain ⟨ha, hb, hc2⟩ := hmr
      exact ⟨⟨by dsimp only; linarith, by dsimp only; linarith, hc2⟩, hhr⟩
  · rw [if_neg h1]
    exact ⟨hmr, hh⟩

/-- C4 witness: the invariant facts instantiated at a concrete bucket pair
and a concrete step. -/
theorem bucket_invariant_witness :
    ((0:ℚ) ≤ 5 → (0:ℚ) ≤ 5/60 → (TokenBucket.new 5 (5/60) 0).WF)
    ∧ ((TokenBucket.mk 2 5 (5/60) 0).WF →
        ((TokenBucket.mk 2 5 (5/60) 0).refill 30).WF)
    ∧ ((TokenBucket.mk 2 5 (5/60) 0).WF →
        (((TokenBucket.mk 2 5 (5/60) 0).consume 30).1).WF)
    ∧ ((Buckets.mk ⟨2, 5, 5/60, 0⟩ ⟨1/2, 10, 1/100, 0⟩).minute.WF →
       (Buckets.mk ⟨2, 5, 5/60, 0⟩ ⟨1/2, 10, 1/100, 0⟩).hour.WF →
        ((((Buckets.mk ⟨2, 5, 5/60, 0⟩ ⟨1/2, 10, 1/100, 0⟩).admission 5 10 30).2).minute.WF ∧
         (((Buckets.mk ⟨2, 5, 5/60, 0⟩ ⟨1/2, 10, 1/100, 0⟩).admission 5 10 30).2).hour.WF)) :=
  bucket_invariant 5 (5/60) 0 30 (TokenBucket.mk 2 5 (5/60) 0)
    (Buckets.mk ⟨2, 5, 5/60, 0⟩ ⟨1/2, 10, 1/100, 0⟩) 5 10

theorem admissionSeq_cons (pm ph : ℕ) (t : ℚ) (ts : List ℚ) (b : Buckets) :
    admissionSeq pm ph (t :: ts) b =
      ((b.admission pm ph t).1 :: (admissionSeq pm ph ts (b.admission pm ph t).2).1,
       (admissionSeq pm ph ts (b.admission pm ph t).2).2) := rfl

theorem admissionSeq_nil (pm ph : ℕ) (b : Buckets) :
    admissionSeq pm ph [] b = ([], b) := rfl

/-- One fully-resolved allowing step, with the refilled token values and the
reported remaining counts supplied as equations. -/
theorem admission_allow_exact (pm ph : ℕ)
    (mv mc mr hv hc hr s t mv2 hv2 : ℚ) (rm rh : ℕ)
    (hs : s ≤ t)
    (hmv : min (mv + (t - s) * mr) mc = mv2)
    (hhv : min (hv + (t - s) * hr) hc = hv2)
    (h1 : 1 ≤ mv2) (h2 : 1 ≤ hv2)
    (hrm : (⌊max (mv2 - 1) 0⌋).toNat = rm)
    (hrh : (⌊max (hv2 - 1) 0⌋).toNat = rh) :
    (Buckets.mk ⟨mv, mc, mr, s⟩ ⟨hv, hc, hr, s⟩).admission pm ph t
      = (.allow rm rh,
         Buckets.mk ⟨mv2 - 1, mc, mr, t⟩ ⟨hv2 - 1, hc, hr, t⟩) := by
  have hmax : max (t - s) 0 = t - s := max_eq_left (by linarith)
  rw [admission_spec]
  simp only [TokenBucket.refill, TokenBucket.remaining]
  rw [hmax, hmv, hhv, if_pos h1, if_pos h2, hrm, hrh]

/-- One fully-resolved minute-denied step. -/
theorem admission_deny_minute_exact (pm ph : ℕ)
    (mv mc mr s t mv2 : ℚ) (hb : TokenBucket) (ra : ℕ)
    (hs : s ≤ t)
    (hmv : min (mv + (t - s) * mr) mc = mv2)
    (h1 : mv2 < 1)
    (hra : (⌈(1 - mv2) / mr⌉).toNat + 1 = ra) :
    (Buckets.mk ⟨mv, mc, mr, s⟩ hb).admission pm ph t
      = (.deny ra "per_minute" pm, Buckets.mk ⟨mv2, mc, mr, t⟩ hb) := by
  have hmax : max (t - s) 0 = t - s := max_eq_left (by linarith)
  rw [admission_spec]
  simp only [TokenBucket.refill, TokenBucket.retry_after]
  rw [hmax, hmv, if_neg (not_le.mpr h1), if_neg (not_le.mpr h1), hra]

/-- `(⌊max x 0⌋).toNat` of a rational lying in `[n, n+1)`. -/
theorem floorNat_between (x : ℚ) (n : ℕ) (h1 : (n:ℚ) ≤ x) (h2 : x < n + 1) :
    (⌊max x 0⌋).toNat = n := by
  have hx0 : (0:ℚ) ≤ x := le_trans (by positivity) h1
  rw [max_eq_left hx0]
  have hfl : ⌊x⌋ = (n:ℤ) := by
    rw [Int.floor_eq_iff]
    constructor
    · exact_mod_cast h1
    · push_cast
      linarith
  rw [hfl]
  exact Int.toNat_natCast n

set_option maxHeartbeats 1600000 in
/-- C5.  A fresh identifier with minute capacity 5 (hour capacity at least
5): five admission calls within the first second are all allowed with minute
remaining counts 4, 3, 2, 1, 0, and the sixth call in that second is denied
with window `"per_minute"` and a retry-after of at least 1 (computed by
`TokenBucket.retry_after` as `ceil((1 - tokens)/refill_rate) + 1`). -/
theorem minute_window_scenario (ph : ℕ) (t1 t2 t3 t4 t5 t6 : ℚ)
    (hph : 5 ≤ ph) (h01 : 0 ≤ t1) (h12 : t1 ≤ t2) (h23 : t2 ≤ t3)
    (h34 : t3 ≤ t4) (h45 : t4 ≤ t5) (h56 : t5 ≤ t6) (h6 : t6 ≤ 1) :
    ∃ r1 r2 r3 r4 r5 ra,
      (admissionSeq 5 ph [t1, t2, t3, t4, t5, t6] (Buckets.new 5 ph 0)).1
        = [.allow 4 r1, .allow 3 r2, .allow 2 r3, .allow 1 r4, .allow 0 r5,
           .deny ra "per_minute" 5]
      ∧ 1 ≤ ra := by
  have hH : (5:ℚ) ≤ (ph:ℚ) := by exact_mod_cast hph
  have hnew : Buckets.new 5 ph 0
      = Buckets.mk ⟨5, 5, 5/60, 0⟩ ⟨(ph:ℚ), (ph:ℚ), (ph:ℚ)/3600, 0⟩ := by
    simp [Buckets.new, TokenBucket.new]
  have c0 : (0:ℚ) ≤ 5/60 := by norm_num
  have P1 : 0 ≤ (t1 - 0) * ((5:ℚ)/60) := mul_nonneg (by linarith) c0
  have P2a : 0 ≤ (t2 - t1) * ((5:ℚ)/60) := mul_nonneg (by linarith) c0
  have P2b : (t2 - t1) * ((5:ℚ)/60) ≤ 5/60 :=
    mul_le_of_le_one_left c0 (by linarith)
  have P3a : 0 ≤ (t3 - t2) * ((5:ℚ)/60) := mul_nonneg (by linarith) c0
  have P3b : (t3 - t2) * ((5:ℚ)/60) ≤ 5/60 :=
    mul_le_of_le_one_left c0 (by linarith)
  have P4a : 0 ≤ (t4 - t3) * ((5:ℚ)/60) := mul_nonneg (by linarith) c0
  have P4b : (t4 - t3) * ((5:ℚ)/60) ≤ 5/60 :=
    mul_le_of_le_one_left c0 (by linarith)
  have P5a : 0 ≤ (t5 - t4) * ((5:ℚ)/60) := mul_nonneg (by linarith) c0
  have P5b : (t5 - t4) * ((5:ℚ)/60) ≤ 5/60 :=
    mul_le_of_le_one_left c0 (by linarith)
  have P6a : 0 ≤ (t6 - t5) * ((5:ℚ)/60) := mul_nonneg (by linarith) c0
  have P6b : (t6 - t5) * ((5:ℚ)/60) ≤ 5/60 :=
    mul_le_of_le_one_left c0 (by linarith)
  have q0 : (0:ℚ) ≤ (ph:ℚ)/3600 := by positivity
  have Q1 : 0 ≤ (t1 - 0) * ((ph:ℚ)/3600) := mul_nonneg (by linarith) q0
  have Q2 : 0 ≤ (t2 - t1) * ((ph:ℚ)/3600) := mul_nonneg (by linarith) q0
  have Q3 : 0 ≤ (t3 - t2) * ((ph:ℚ)/3600) := mul_nonneg (by linarith) q0
  have Q4 : 0 ≤ (t4 - t3) * ((ph:ℚ)/3600) := mul_nonneg (by linarith) q0
  have Q5 : 0 ≤ (t5 - t4) * ((ph:ℚ)/3600) := mul_nonneg (by linarith) q0
  have HB2 : (ph:ℚ) - 1 ≤ min ((ph:ℚ) - 1 + (t2 - t1) * ((ph:ℚ)/3600)) (ph:ℚ) :=
    le_min (by linarith) (by linarith)
  have HB3 : (ph:ℚ) - 2 ≤
      min (min ((ph:ℚ) - 1 + (t2 - t1) * ((ph:ℚ)/3600)) (ph:ℚ) - 1
            + (t3 - t2) * ((ph:ℚ)/3600)) (ph:ℚ) :=
    le_min (by linarith) (by linarith)
  have HB4 : (ph:ℚ) - 3 ≤
      min (min (min ((ph:ℚ) - 1 + (t2 - t1) * ((ph:ℚ)/3600)) (ph:ℚ) - 1
            + (t3 - t2) * ((ph:ℚ)/3600)) (ph:ℚ) - 1
            + (t4 - t3) * ((ph:ℚ)/3600)) (ph:ℚ) :=
    le_min (by linarith) (by linarith)
  have HB5 : (ph:ℚ) - 4 ≤
      min (min (min (min ((ph:ℚ) - 1 + (t2 - t1) * ((ph:ℚ)/3600)) (ph:ℚ) - 1
            + (t3 - t2) * ((ph:ℚ)/3600)) (ph:ℚ) - 1
            + (t4 - t3) * ((ph:ℚ)/3600)) (ph:ℚ) - 1
            + (t5 - t4) * ((ph:ℚ)/3600)) (ph:ℚ) :=
    le_min (by linarith) (by linarith)
  have hs1 := admission_allow_exact 5 ph 5 5 (5/60) (ph:ℚ) (ph:ℚ) ((ph:ℚ)/3600)
      0 t1 5 (ph:ℚ) 4 ((⌊max ((ph:ℚ) - 1) 0⌋).toNat)
      h01 (min_eq_right (by linarith)) (min_eq_right (by linarith))
      (by norm_num) (by linarith)
      (floorNat_between _ 4 (by norm_num) (by norm_num)) rfl
  have hs2 := admission_allow_exact 5 ph (5 - 1) 5 (5/60)
      ((ph:ℚ) - 1) (ph:ℚ) ((ph:ℚ)/3600) t1 t2
      (5 - 1 + (t2 - t1) * (5/60))
      (min ((ph:ℚ) - 1 + (t2 - t1) * ((ph:ℚ)/3600)) (ph:ℚ))
      3 ((⌊max (min ((ph:ℚ) - 1 + (t2 - t1) * ((ph:ℚ)/3600)) (ph:ℚ) - 1) 0⌋).toNat)
      h12 (min_eq_left (by linarith)) rfl
      (by linarith) (by linarith)
      (floorNat_between _ 3 (by push_cast; linarith) (by push_cast; linarith))
      rfl
  have hs3 := admission_allow_exact 5 ph (5 - 1 + (t2 - t1) * (5/60) - 1) 5 (5/60)
      (min ((ph:ℚ) - 1 + (t2 - t1) * ((ph:ℚ)/3600)) (ph:ℚ) - 1) (ph:ℚ)
      ((ph:ℚ)/3600) t2 t3
      (5 - 1 + (t2 - t1) * (5/60) - 1 + (t3 - t2) * (5/60))
      (min (min ((ph:ℚ) - 1 + (t2 - t1) * ((ph:ℚ)/3600)) (ph:ℚ) - 1
            + (t3 - t2) * ((ph:ℚ)/3600)) (ph:ℚ))
      2 ((⌊max (min (min ((ph:ℚ) - 1 + (t2 - t1) * ((ph:ℚ)/3600)) (ph:ℚ) - 1
            + (t3 - t2) * ((ph:ℚ)/3600)) (ph:ℚ) - 1) 0⌋).toNat)
      h23 (min_eq_left (by linarith)) rfl
      (by linarith) (by linarith)
      (floorNat_between _ 2 (by push_cast; linarith) (by push_cast; linarith))
      rfl
  have hs4 := admission_allow_exact 5 ph
      (5 - 1 + (t2 - t1) * (5/60) - 1 + (t3 - t2) * (5/60) - 1) 5 (5/60)
      (min (min ((ph:ℚ) - 1 + (t2 - t1) * ((ph:ℚ)/3600)) (ph:ℚ) - 1
            + (t3 - t2) * ((ph:ℚ)/3600)) (ph:ℚ) - 1) (ph:ℚ)
      ((ph:ℚ)/3600) t3 t4
      (5 - 1 + (t2 - t1) * (5/60) - 1 + (t3 - t2) * (5/60) - 1
        + (t4 - t3) * (5/60))
      (min (min (min ((ph:ℚ) - 1 + (t2 - t1) * ((ph:ℚ)/3600)) (ph:ℚ) - 1
            + (t3 - t2) * ((ph:ℚ)/3600)) (ph:ℚ) - 1
            + (t4 - t3) * ((ph:ℚ)/3600)) (ph:ℚ))
      1 ((⌊max (min (min (min ((ph:ℚ) - 1 + (t2 - t1) * ((ph:ℚ)/3600)) (ph:ℚ) - 1
            + (t3 - t2) * ((ph:ℚ)/3600)) (ph:ℚ) - 1
            + (t4 - t3) * ((ph:ℚ)/3600)) (ph:ℚ) - 1) 0⌋).toNat)
      h34 (min_eq_left (by linarith)) rfl
      (by linarith) (by linarith)
      (floorNat_between _ 1 (by push_cast; linarith) (by push_cast; linarith))
      rfl
  have hs5 := admission_allow_exact 5 ph
      (5 - 1 + (t2 - t1) * (5/60) - 1 + (t3 - t2) * (5/60) - 1
        + (t4 - t3) * (5/60) - 1) 5 (5/60)
      (min (min (min ((ph:ℚ) - 1 + (t2 - t1) * ((ph:ℚ)/3600)) (ph:ℚ) - 1
            + (t3 - t2) * ((ph:ℚ)/3600)) (ph:ℚ) - 1
            + (t4 - t3) * ((ph:ℚ)/3600)) (ph:ℚ) - 1) (ph:ℚ)
      ((ph:ℚ)/3600) t4 t5
      (5 - 1 + (t2 - t1) * (5/60) - 1 + (t3 - t2) * (5/60) - 1
        + (t4 - t3) * (5/60) - 1 + (t5 - t4) * (5/60))
      (min (min (min (min ((ph:ℚ) - 1 + (t2 - t1) * ((ph:ℚ)/3600)) (ph:ℚ) - 1
            + (t3 - t2) * ((ph:ℚ)/3600)) (ph:ℚ) - 1
            + (t4 - t3) * ((ph:ℚ)/3600)) (ph:ℚ) - 1
            + (t5 - t4) * ((ph:ℚ)/3600)) (ph:ℚ))
      0 ((⌊max (min (min (min (min ((ph:ℚ) - 1 + (t2 - t1) * ((ph:ℚ)/3600)) (ph:ℚ) - 1
            + (t3 - t2) * ((ph:ℚ)/3600)) (ph:ℚ) - 1
            + (t4 - t3) * ((ph:ℚ)/3600)) (ph:ℚ) - 1
            + (t5 - t4) * ((ph:ℚ)/3600)) (ph:ℚ) - 1) 0⌋).toNat)
      h45 (min_eq_left (by linarith)) rfl
      (by linarith) (by linarith)
      (floorNat_between _ 0 (by push_cast; linarith) (by push_cast; linarith))
      rfl
  have hs6 := admission_deny_minute_exact 5 ph
      (5 - 1 + (t2 - t1) * (5/60) - 1 + (t3 - t2) * (5/60) - 1
        + (t4 - t3) * (5/60) - 1 + (t5 - t4) * (5/60) - 1) 5 (5/60) t5 t6
      (5 - 1 + (t2 - t1) * (5/60) - 1 + (t3 - t2) * (5/60) - 1
        + (t4 - t3) * (5/60) - 1 + (t5 - t4) * (5/60) - 1
        + (t6 - t5) * (5/60))
      ⟨min (min (min (min ((ph:ℚ) - 1 + (t2 - t1) * ((ph:ℚ)/3600)) (ph:ℚ) - 1
            + (t3 - t2) * ((ph:ℚ)/3600)) (ph:ℚ) - 1
            + (t4 - t3) * ((ph:ℚ)/3600)) (ph:ℚ) - 1
            + (t5 - t4) * ((ph:ℚ)/3600)) (ph:ℚ) - 1,
        (ph:ℚ), (ph:ℚ)/3600, t5⟩
      ((⌈(1 - (5 - 1 + (t2 - t1) * (5/60) - 1 + (t3 - t2) * (5/60) - 1
        + (t4 - t3) * (5/60) - 1 + (t5 - t4) * (5/60) - 1
        + (t6 - t5) * (5/60))) / (5/60)⌉).toNat + 1)
      h56 (min_eq_left (by linarith)) (by linarith) rfl
  have hrun : (admissionSeq 5 ph [t1, t2, t3, t4, t5, t6] (Buckets.new 5 ph 0)).1
      = [.allow 4 ((⌊max ((ph:ℚ) - 1) 0⌋).toNat),
         .allow 3 ((⌊max (min ((ph:ℚ) - 1 + (t2 - t1) * ((ph:ℚ)/3600)) (ph:ℚ) - 1) 0⌋).toNat),
         .allow 2 ((⌊max (min (min ((ph:ℚ) - 1 + (t2 - t1) * ((ph:ℚ)/3600)) (ph:ℚ) - 1 + (t3 - t2) * ((ph:ℚ)/3600)) (ph:ℚ) - 1) 0⌋).toNat),
         .allow 1 ((⌊max (min (min (min ((ph:ℚ) - 1 + (t2 - t1) * ((ph:ℚ)/3600)) (ph:ℚ) - 1 + (t3 - t2) * ((ph:ℚ)/3600)) (ph:ℚ) - 1 + (t4 - t3) * ((ph:ℚ)/3600)) (ph:ℚ) - 1) 0⌋).toNat),
         .allow 0 ((⌊max (min (min (min (min ((ph:ℚ) - 1 + (t2 - t1) * ((ph:ℚ)/3600)) (ph:ℚ) - 1 + (t3 - t2) * ((ph:ℚ)/3600)) (ph:ℚ) - 1 + (t4 - t3) * ((ph:ℚ)/3600)) (ph:ℚ) - 1 + (t5 - t4) * ((ph:ℚ)/3600)) (ph:ℚ) - 1) 0⌋).toNat),
         .deny ((⌈(1 - (5 - 1 + (t2 - t1) * (5/60) - 1 + (t3 - t2) * (5/60) - 1
        + (t4 - t3) * (5/60) - 1 + (t5 - t4) * (5/60) - 1
        + (t6 - t5) * (5/60))) / (5/60)⌉).toNat + 1) "per_minute" 5] := by
    simp only [admissionSeq_cons, admissionSeq_nil]
    rw [hnew, hs1]
    dsimp only
    rw [hs2]
    dsimp only
    rw [hs3]
    dsimp only
    rw [hs4]
    dsimp only
    rw [hs5]
    dsimp only
    rw [hs6]
  exact ⟨_, _, _, _, _, _, hrun, Nat.le_add_left 1 _⟩

/-- C5 witness: the scenario run at six concrete times (all at the creation
instant). -/
theorem minute_window_scenario_witness :
    (5 ≤ 5) ∧ ((0:ℚ) ≤ 0) ∧ ((0:ℚ) ≤ 1) ∧
    (∃ r1 r2 r3 r4 r5 ra,
      (admissionSeq 5 5 [0, 0, 0, 0, 0, 0] (Buckets.new 5 5 0)).1
        = [.allow 4 r1, .allow 3 r2, .allow 2 r3, .allow 1 r4, .allow 0 r5,
           .deny ra "per_minute" 5]
      ∧ 1 ≤ ra) :=
  ⟨le_refl 5, le_refl 0, zero_le_one,
   minute_window_scenario 5 0 0 0 0 0 0 (le_refl 5) (le_refl 0) (le_refl 0)
     (le_refl 0) (le_refl 0) (le_refl 0) (le_refl 0) zero_le_one⟩

/-! ## The housekeeping sweep -/

theorem cleanup_id (s : RateLimitState) (now : ℚ) : s.cleanup now = s := by
  unfold RateLimitState.cleanup
  have h : (1 : ℕ) - s.last_cleanup < 300 :=
    lt_of_le_of_lt (Nat.sub_le 1 _) (by norm_num)
  simp only [if_pos h]

/-- C6.  The sweep gate of `RateLimitState::cleanup` compares the constant
`Instant::now().duration_since(Instant::now() - 1s).as_secs() = 1` against
the last-swept marker, so `1 - last < 300` always holds and the retention
sweep body is unreachable: `cleanup` never removes anything, for any state
and any wall-clock time — idle identifiers are never evicted, contradicting
the claimed 300-second sweep cadence and 1-hour retention eviction. -/
theorem cleanup_never_sweeps (s : RateLimitState) (now : ℚ) :
    s.cleanup now = s :=
  cleanup_id s now

/-- A concrete state holding an identifier untouched for two hours survives
a cleanup called two hours later, with the sweep marker at its initial
value 0. -/
theorem cleanup_concrete_no_eviction :
    (RateLimitState.mk [("ip:1.2.3.4", Buckets.new 5 10 0)] 5 10 0).cleanup 7200
      = RateLimitState.mk [("ip:1.2.3.4", Buckets.new 5 10 0)] 5 10 0 :=
  cleanup_id (RateLimitState.mk [("ip:1.2.3.4", Buckets.new 5 10 0)] 5 10 0) 7200

theorem admission_allow_remaining (b : Buckets) (pm ph : ℕ) (now : ℚ)
    (rm rh : ℕ) (h : (b.admission pm ph now).1 = .allow rm rh) :
    rm = ((b.admission pm ph now).2).minute.remaining
    ∧ rh = ((b.admission pm ph now).2).hour.remaining := by
  rw [admission_spec] at h ⊢
  by_cases h1 : 1 ≤ (b.minute.refill now).tokens
  · rw [if_pos h1] at h ⊢
    by_cases h2 : 1 ≤ (b.hour.refill now).tokens
    · rw [if_pos h2] at h ⊢
      dsimp only at h ⊢
      simp only [AdmissionResult.allow.injEq] at h
      exact ⟨h.1.symm, h.2.symm⟩
    · rw [if_neg h2] at h
      simp at h
  · rw [if_neg h1] at h
    simp at h

/-- C9.  Excluded paths bypass the middleware entirely; an allowed request
gets exactly the four `X-RateLimit-*` headers appended, the two remaining
values being the post-consumption token counts of the caller's two buckets
(floored to non-negative integers); a denied request's response carries
only a `Retry-After` header and none of the four. -/
theorem rate_limit_headers (s : RateLimitState) (req : RequestModel)
    (inner : ResponseModel) (now : ℚ) :
    (req.path ∈ EXCLUDED_PATHS →
      RateLimitService.call s req inner now = (inner, s))
    ∧ (req.path ∉ EXCLUDED_PATHS → ∀ rm rh,
        (RateLimitService.admissionOf s req now).1 = .allow rm rh →
          (RateLimitService.call s req inner now).1.headers
            = inner.headers ++
              [("X-RateLimit-Limit-Minute", toString s.per_minute),
               ("X-RateLimit-Limit-Hour", toString s.per_hour),
               ("X-RateLimit-Remaining-Minute", toString rm),
               ("X-RateLimit-Remaining-Hour", toString rh)]
          ∧ rm = ((RateLimitService.admissionOf s req now).2).minute.remaining
          ∧ rh = ((RateLimitService.admissionOf s req now).2).hour.remaining)
    ∧ (req.path ∉ EXCLUDED_PATHS → ∀ r wname l,
        (RateLimitService.admissionOf s req now).1 = .deny r wname l →
          (RateLimitService.call s req inner now).1.headers.map Prod.fst
            = ["Retry-After"]) := by
  refine ⟨fun hex => ?_, fun hex rm rh hallow => ?_, fun hex r wname l hdeny => ?_⟩
  · unfold RateLimitService.call
    rw [if_pos hex]
  · have hrem := admission_allow_remaining
      (((s.cleanup now)).get_or_create (identifierOf req) now)
      s.per_minute s.per_hour now rm rh hallow
    refine ⟨?_, hrem.1, hrem.2⟩
    unfold RateLimitService.call
    rw [if_neg hex]
    simp only [hallow, cleanup_id]
  · unfold RateLimitService.call
    rw [if_neg hex]
    simp only [hdeny]
    rfl

/-- C9 witness: a non-excluded request from a fresh identifier is allowed
and the four headers with the concrete remaining counts 4 and 9 are
appended to the inner response. -/
theorem rate_limit_headers_witness :
    ("/api/v1/chat" ∉ EXCLUDED_PATHS) ∧
    ((RateLimitService.admissionOf (RateLimitState.new 5 10)
        (RequestModel.mk "/api/v1/chat" (some "1.2.3.4")) 0).1 = .allow 4 9) ∧
    ((RateLimitService.call (RateLimitState.new 5 10)
        (RequestModel.mk "/api/v1/chat" (some "1.2.3.4"))
        (ResponseModel.mk 200 [] none) 0).1.headers
      = [] ++
        [("X-RateLimit-Limit-Minute", toString (5:ℕ)),
         ("X-RateLimit-Limit-Hour", toString (10:ℕ)),
         ("X-RateLimit-Remaining-Minute", toString (4:ℕ)),
         ("X-RateLimit-Remaining-Hour", toString (9:ℕ))]) := by
  have hex : "/api/v1/chat" ∉ EXCLUDED_PATHS := by decide
  have hallow : (RateLimitService.admissionOf (RateLimitState.new 5 10)
      (RequestModel.mk "/api/v1/chat" (some "1.2.3.4")) 0).1 = .allow 4 9 := by
    unfold RateLimitService.admissionOf RateLimitState.get_or_create
    rw [cleanup_id]
    norm_num [RateLimitState.new, lookupKey, Buckets.new, Buckets.admission,
      TokenBucket.new, TokenBucket.consume, TokenBucket.refill,
      TokenBucket.remaining] <;> decide
  exact ⟨hex, hallow,
    ((rate_limit_headers (RateLimitState.new 5 10)
        (RequestModel.mk "/api/v1/chat" (some "1.2.3.4"))
        (ResponseModel.mk 200 [] none) 0).2.1 hex 4 9 hallow).1⟩

/-! ## Lemmas about the connection registry -/

theorem lookupKey_setKey_self {α : Type} (tbl : List (String × α))
    (k : String) (v : α) :
    lookupKey (setKey tbl k v) k = (lookupKey tbl k).map (fun _ => v) := by
  induction tbl with
  | nil => rfl
  | cons p ps ih =>
    by_cases h : p.1 = k
    · simp [setKey, lookupKey, h]
    · simp only [setKey, List.map_cons, if_neg h] at ih ⊢
      rw [lookupKey, if_neg h, lookupKey, if_neg h, ih]

theorem lookupKey_setKey_ne {α : Type} (tbl : List (String × α))
    (k k2 : String) (v : α) (h : k2 ≠ k) :
    lookupKey (setKey tbl k v) k2 = lookupKey tbl k2 := by
  induction tbl with
  | nil => rfl
  | cons p ps ih =>
    by_cases hp : p.1 = k
    · simp only [setKey, List.map_cons, if_pos hp] at ih ⊢
      have h1 : ¬ (((k, v) : String × α).1 = k2) := by
        simp only
        exact fun hh => h hh.symm
      have h2 : ¬ (p.1 = k2) := by
        rw [hp]
        exact fun hh => h hh.symm
      rw [lookupKey, if_neg h1, lookupKey, if_neg h2, ih]
    · simp only [setKey, List.map_cons, if_neg hp] at ih ⊢
      rw [lookupKey, lookupKey, ih]

theorem lookupKey_filterKey_self {α : Type} (tbl : List (String × α))
    (k : String) :
    lookupKey (tbl.filter (fun p => decide (p.1 ≠ k))) k = none := by
  induction tbl with
  | nil => rfl
  | cons p ps ih =>
    by_cases h : p.1 = k
    · simpa [List.filter, h] using ih
    · simpa [List.filter, h, lookupKey] using ih

theorem lookupKey_filterKey_ne {α : Type} (tbl : List (String × α))
    (k k2 : String) (h : k2 ≠ k) :
    lookupKey (tbl.filter (fun p => decide (p.1 ≠ k))) k2
      = lookupKey tbl k2 := by
  induction tbl with
  | nil => rfl
  | cons p ps ih =>
    by_cases hp : p.1 = k
    · rw [List.filter_cons_of_neg (by simp [hp]), ih, lookupKey,
        if_neg (by rw [hp]; exact fun hh => h hh.symm)]
    · rw [List.filter_cons_of_pos (by simp [hp]), lookupKey, lookupKey, ih]

/-- C8.  After `disconnect(u, cid)`, a publish to `u` never delivers to
connection `cid`; `disconnect` drops exactly the connections with that id
from `u`'s entry (removing the entry entirely when it empties) and leaves
every other user's entry unchanged; and a publish to a user with no entry
is a no-op. -/
theorem ws_disconnect_publish (m : WsManager) (u u2 : String) (cid : ℕ)
    (hne : u2 ≠ u) :
    (cid ∉ ((m.disconnect u cid).send_to_user u).2)
    ∧ (lookupKey (m.disconnect u cid).connections u
        = (match lookupKey m.connections u with
           | none => none
           | some conns =>
             if (conns.filter (fun c => decide (c.id ≠ cid))).isEmpty then none
             else some (conns.filter (fun c => decide (c.id ≠ cid)))))
    ∧ (lookupKey (m.disconnect u cid).connections u2
        = lookupKey m.connections u2)
    ∧ (lookupKey m.connections u = none → m.send_to_user u = (m, [])) := by
  have hchar : lookupKey (m.disconnect u cid).connections u
      = (match lookupKey m.connections u with
         | none => none
         | some conns =>
           if (conns.filter (fun c => decide (c.id ≠ cid))).isEmpty then none
           else some (conns.filter (fun c => decide (c.id ≠ cid)))) := by
    unfold WsManager.disconnect
    cases hcase : lookupKey m.connections u with
    | none => simp [hcase]
    | some conns =>
      by_cases hemp : (conns.filter (fun c => decide (c.id ≠ cid))).isEmpty
      · simp only [hcase, if_pos hemp]
        exact lookupKey_filterKey_self m.connections u
      · simp only [hcase, if_neg hemp]
        rw [lookupKey_setKey_self, hcase]
        rfl
  refine ⟨?_, hchar, ?_, fun hnone => ?_⟩
  · intro hmem
    unfold WsManager.send_to_user at hmem
    cases hd : lookupKey (m.disconnect u cid).connections u with
    | none => rw [hd] at hmem; simp at hmem
    | some conns2 =>
      rw [hd] at hmem
      simp only [List.mem_map] at hmem
      obtain ⟨c, hc, hcid⟩ := hmem
      have hc2 : c ∈ conns2 := (List.mem_filter.mp hc).1
      rw [hchar] at hd
      cases hcase : lookupKey m.connections u with
      | none => rw [hcase] at hd; simp at hd
      | some conns =>
        rw [hcase] at hd
        dsimp only at hd
        by_cases hemp : (conns.filter (fun c => decide (c.id ≠ cid))).isEmpty
        · rw [if_pos hemp] at hd; simp at hd
        · rw [if_neg hemp] at hd
          have : conns2 = conns.filter (fun c => decide (c.id ≠ cid)) :=
            (Option.some.injEq _ _ ▸ hd.symm)
          rw [this] at hc2
          have := (List.mem_filter.mp hc2).2
          simp at this
          exact this hcid
  · unfold WsManager.disconnect
    cases hcase : lookupKey m.connections u with
    | none => rfl
    | some conns =>
      by_cases hemp : (conns.filter (fun c => decide (c.id ≠ cid))).isEmpty
      · simp only [if_pos hemp]
        exact lookupKey_filterKey_ne m.connections u u2 hne
      · simp only [if_neg hemp]
        exact lookupKey_setKey_ne m.connections u u2 _ hne
  · unfold WsManager.send_to_user
    rw [hnone]

/-- C8 witness: a two-connection user; disconnecting connection 1 and
publishing delivers only to connection 2, the entry keeps exactly
connection 2, user `"bob"` is untouched, and publishing to an absent user
is a no-op. -/
theorem ws_disconnect_publish_witness :
    ("bob" ≠ "alice") ∧
    ((1 ∉ (((WsManager.mk [("alice", [⟨1, true⟩, ⟨2, true⟩])]).disconnect
        "alice" 1).send_to_user "alice").2)
    ∧ (lookupKey ((WsManager.mk
          [("alice", [⟨1, true⟩, ⟨2, true⟩])]).disconnect "alice" 1).connections
          "alice"
        = (match lookupKey (WsManager.mk
              [("alice", [⟨1, true⟩, ⟨2, true⟩])]).connections "alice" with
           | none => none
           | some conns =>
             if (conns.filter (fun c => decide (c.id ≠ 1))).isEmpty then none
             else some (conns.filter (fun c => decide (c.id ≠ 1)))))
    ∧ (lookupKey ((WsManager.mk
          [("alice", [⟨1, true⟩, ⟨2, true⟩])]).disconnect "alice" 1).connections
          "bob"
        = lookupKey (WsManager.mk
            [("alice", [⟨1, true⟩, ⟨2, true⟩])]).connections "bob")
    ∧ (lookupKey (WsManager.mk
          [("alice", [⟨1, true⟩, ⟨2, true⟩])]).connections "alice" = none →
        (WsManager.mk [("alice", [⟨1, true⟩, ⟨2, true⟩])]).send_to_user "alice"
          = (WsManager.mk [("alice", [⟨1, true⟩, ⟨2, true⟩])], []))) :=
  ⟨by decide,
   ws_disconnect_publish (WsManager.mk [("alice", [⟨1, true⟩, ⟨2, true⟩])])
     "alice" "bob" 1 (by decide)⟩

/-! ## Lemmas about the orchestration -/

theorem validate_ok_parsed (body : SendMessageRequest)
    (h : body.validate_content = .ok ()) :
    ∃ mt, body.parsed_message_type = some mt := by
  unfold SendMessageRequest.validate_content at h
  cases hp : body.parsed_message_type with
  | none => rw [hp] at h; exact absurd h (by simp)
  | some mt => exact ⟨mt, rfl⟩

/-- C7.  A text message whose content trims to empty fails validation; a
request passes `validate_content` exactly when the spec's content rules
hold for its parsed message type; and any validation error makes
`send_message` fail fast with that error, creating no message rows and
invoking nothing. -/
theorem validation_gate (env : SendEnv) (w : World) (conversation_id : String)
    (body : SendMessageRequest) (e : String) :
    (body.message_type = "text" → trimmed (body.content.getD "") = "" →
      ∃ e2, body.validate_content = .error e2)
    ∧ (body.validate_content = .ok () ↔
        ∃ mt, body.parsed_message_type = some mt ∧ specContentRules body mt)
    ∧ (body.validate_content = .error e →
        send_message env w conversation_id body =
          { outcome := .badRequest e, messages := w.messages, aiCall := none,
            backgroundTasks := 0, typingEvents := 0 }) := by
  refine ⟨fun hmt hc => ?_, ?_, fun he => ?_⟩
  · refine ⟨"content is required for text messages", ?_⟩
    unfold SendMessageRequest.validate_content
      SendMessageRequest.parsed_message_type
    rw [hmt]
    have hts : MessageType.from_str "text" = some .text := by decide
    rw [hts]
    dsimp only
    rw [if_pos hc]
  · unfold SendMessageRequest.validate_content
    cases hp : body.parsed_message_type with
    | none => simp
    | some mt =>
      dsimp only
      cases mt with
      | text =>
        dsimp only
        constructor
        · intro h
          refine ⟨.text, rfl, ?_⟩
          simp only [specContentRules]
          intro hce
          rw [if_pos hce] at h
          simp at h
        · rintro ⟨mt', hmt', hrules⟩
          injection hmt' with hmt2
          subst hmt2
          simp only [specContentRules] at hrules
          rw [if_neg hrules]
      | image =>
        dsimp only
        constructor
        · intro h
          refine ⟨.image, rfl, ?_⟩
          by_cases h0 : (body.media_urls.getD []) = []
          · rw [if_pos h0] at h
            simp at h
          · rw [if_neg h0] at h
            by_cases h10 : (body.media_urls.getD []).length > 10
            · rw [if_pos h10] at h
              simp at h
            · simp only [specContentRules]
              have := List.length_pos.mpr h0
              omega
        · rintro ⟨mt', hmt', hrules⟩
          injection hmt' with hmt2
          subst hmt2
          simp only [specContentRules] at hrules
          have h0 : (body.media_urls.getD []) ≠ [] := by
            intro hh
            rw [hh] at hrules
            simp at hrules
          rw [if_neg h0, if_neg (by omega)]
      | multimodal =>
        dsimp only
        constructor
        · intro h
          refine ⟨.multimodal, rfl, ?_⟩
          by_cases h0 : (body.media_urls.getD []) = []
          · rw [if_pos h0] at h
            simp at h
          · rw [if_neg h0] at h
            by_cases h10 : (body.media_urls.getD []).length > 10
            · rw [if_pos h10] at h
              simp at h
            · simp only [specContentRules]
              have := List.length_pos.mpr h0
              omega
        · rintro ⟨mt', hmt', hrules⟩
          injection hmt' with hmt2
          subst hmt2
          simp only [specContentRules] at hrules
          have h0 : (body.media_urls.getD []) ≠ [] := by
            intro hh
            rw [hh] at hrules
            simp at hrules
          rw [if_neg h0, if_neg (by omega)]
      | audio =>
        dsimp only
        constructor
        · intro h
          refine ⟨.audio, rfl, ?_⟩
          simp only [specContentRules]
          by_cases h0 : body.audio_url = none
          · rw [if_pos h0] at h
            simp at h
          · exact Option.isSome_iff_ne_none.mpr h0
        · rintro ⟨mt', hmt', hrules⟩
          injection hmt' with hmt2
          subst hmt2
          simp only [specContentRules] at hrules
          rw [if_neg (Option.isSome_iff_ne_none.mp hrules)]
  · unfold send_message
    rw [he]

/-- C7 witness: the empty-text scenario at concrete values. -/
theorem validation_gate_witness :
    (SendMessageRequest.mk "text" (some "   ") none none none none).message_type
        = "text" ∧
    (trimmed ((SendMessageRequest.mk "text" (some "   ") none none none
        none).content.getD "") = "") ∧
    (∃ e2, (SendMessageRequest.mk "text" (some "   ") none none none
        none).validate_content = .error e2) ∧
    ((SendMessageRequest.mk "text" (some "   ") none none none
        none).validate_content = .error "content is required for text messages" →
      send_message
        (SendEnv.mk "u1" "m1" "m2" 10 11 false (.ok ("hi", 1)) (.ok ("hi", 1))
          (.ok "t") id)
        (World.mk [] [] []) "c1"
        (SendMessageRequest.mk "text" (some "   ") none none none none) =
        { outcome := .badRequest "content is required for text messages",
          messages := [], aiCall := none,
          backgroundTasks := 0, typingEvents := 0 }) := by
  have h := validation_gate
    (SendEnv.mk "u1" "m1" "m2" 10 11 false (.ok ("hi", 1)) (.ok ("hi", 1))
      (.ok "t") id)
    (World.mk [] [] []) "c1"
    (SendMessageRequest.mk "text" (some "   ") none none none none)
    "content is required for text messages"
  exact ⟨rfl, by decide, h.1 rfl (by decide), h.2.2⟩

/-- C2.  When a send request repeats a `clientMessageId` whose user row and
subsequent assistant reply already exist in the conversation (the first
send completed), `send_message` returns exactly the stored pair with HTTP
200, leaves the message table unchanged, performs no generation call,
spawns no background work and publishes no typing events. -/
theorem dedup_idempotent (env : SendEnv) (w : World) (conversation_id : String)
    (body : SendMessageRequest) (conv : Conversation) (cid : String)
    (existing reply : Message)
    (hval : body.validate_content = .ok ())
    (hconv : w.conversations.find? (fun c => decide (c.id = conversation_id))
      = some conv)
    (hown : conv.user_id = env.userId)
    (hcid : body.client_message_id = some cid)
    (hex : get_by_client_id w.messages conversation_id cid = some existing)
    (hreply : get_assistant_reply w.messages existing.id = some reply) :
    send_message env w conversation_id body =
      { outcome := .ok 200 existing reply, messages := w.messages,
        aiCall := none, backgroundTasks := 0, typingEvents := 0 } := by
  obtain ⟨mt, hmt⟩ := validate_ok_parsed body hval
  simp only [send_message, hval, hmt, hconv,
    if_neg (show ¬ (conv.user_id ≠ env.userId) from fun hh => hh hown),
    hcid, Option.some_bind, dedupHit, hex, hreply, Option.map_some']

/-- C2 witness: a conversation already holding the user row for
`"cli-1"` and its assistant reply; resending returns the stored pair and
changes nothing. -/
theorem dedup_idempotent_witness :
    ((SendMessageRequest.mk "text" (some "hi") none none none
        (some "cli-1")).validate_content = .ok ())
    ∧ (send_message
        (SendEnv.mk "u1" "m1" "m2" 10 11 false (.ok ("x", 1)) (.ok ("x", 1))
          (.ok "t") id)
        (World.mk
          [Message.mk "u-1" "c1" .user (some "hello") .text [] none none none
            (some "cli-1") 5,
           Message.mk "a-1" "c1" .assistant (some "hey") .text [] none none
            (some 3) none 6]
          [Conversation.mk "c1" "u1" "inf1" []]
          [Influencer.mk "inf1" "Belle" none "sys" .active false])
        "c1"
        (SendMessageRequest.mk "text" (some "hi") none none none
          (some "cli-1"))
      = { outcome := .ok 200
            (Message.mk "u-1" "c1" .user (some "hello") .text [] none none
              none (some "cli-1") 5)
            (Message.mk "a-1" "c1" .assistant (some "hey") .text [] none none
              (some 3) none 6),
          messages :=
            [Message.mk "u-1" "c1" .user (some "hello") .text [] none none
              none (some "cli-1") 5,
             Message.mk "a-1" "c1" .assistant (some "hey") .text [] none none
              (some 3) none 6],
          aiCall := none, backgroundTasks := 0, typingEvents := 0 }) :=
  ⟨by decide,
   dedup_idempotent
     (SendEnv.mk "u1" "m1" "m2" 10 11 false (.ok ("x", 1)) (.ok ("x", 1))
       (.ok "t") id)
     (World.mk
       [Message.mk "u-1" "c1" .user (some "hello") .text [] none none none
         (some "cli-1") 5,
        Message.mk "a-1" "c1" .assistant (some "hey") .text [] none none
         (some 3) none 6]
       [Conversation.mk "c1" "u1" "inf1" []]
       [Influencer.mk "inf1" "Belle" none "sys" .active false])
     "c1"
     (SendMessageRequest.mk "text" (some "hi") none none none (some "cli-1"))
     (Conversation.mk "c1" "u1" "inf1" []) "cli-1"
     (Message.mk "u-1" "c1" .user (some "hello") .text [] none none none
       (some "cli-1") 5)
     (Message.mk "a-1" "c1" .assistant (some "hey") .text [] none none
       (some 3) none 6)
     (by decide) (by decide) rfl rfl (by decide) (by decide)⟩

/-- C3.  Past validation, authorization, dedup and the availability gate,
a generation-backend error still completes the request: the fallback
apology becomes the assistant content with token count 0, both the user
row and the fallback assistant row are persisted, the two background
continuations are spawned, and the response status is 503 (service
degraded) rather than 200. -/
theorem generation_fallback (env : SendEnv) (w : World)
    (conversation_id : String) (body : SendMessageRequest)
    (conv : Conversation) (influencer : Influencer) (err : String)
    (hval : body.validate_content = .ok ())
    (hconv : w.conversations.find? (fun c => decide (c.id = conversation_id))
      = some conv)
    (hown : conv.user_id = env.userId)
    (hdedup : body.client_message_id.bind
      (fun cid => dedupHit w.messages conversation_id cid) = none)
    (hinf : w.influencers.find? (fun i => decide (i.id = conv.influencer_id))
      = some influencer)
    (hact : ¬ (influencer.is_active = InfluencerStatus.discontinued))
    (herr : selectedAiResult env influencer = .error err) :
    ∃ u a,
      (send_message env w conversation_id body).outcome = .ok 503 u a
      ∧ a.content = some FALLBACK_ERROR_MESSAGE
      ∧ a.token_count = some 0
      ∧ a.role = .assistant
      ∧ u.role = .user
      ∧ u.conversation_id = conversation_id
      ∧ u.client_message_id = body.client_message_id
      ∧ (send_message env w conversation_id body).messages
          = w.messages ++ [u, a]
      ∧ (send_message env w conversation_id body).backgroundTasks = 2 := by
  obtain ⟨mt, hmt⟩ := validate_ok_parsed body hval
  simp only [send_message, hval, hmt, hconv,
    if_neg (show ¬ (conv.user_id ≠ env.userId) from fun hh => hh hown),
    hdedup, hinf, if_neg hact, herr, if_true]
  refine ⟨mkUserMessage env conversation_id body mt,
    mkAssistantMessage env conversation_id FALLBACK_ERROR_MESSAGE 0, rfl,
    rfl, rfl, rfl, rfl, rfl, rfl, ?_, trivial⟩
  simp

/-- C3 witness: a concrete world where the Gemini backend errors; the call
still completes with the fallback pair and both rows persisted. -/
theorem generation_fallback_witness :
    ((SendMessageRequest.mk "text" (some "hi") none none none
        none).validate_content = .ok ())
    ∧ ((World.mk [] [Conversation.mk "c1" "u1" "inf1" []]
          [Influencer.mk "inf1" "Belle" none "sys" .active false]
        ).conversations.find? (fun c => decide (c.id = "c1"))
        = some (Conversation.mk "c1" "u1" "inf1" []))
    ∧ (selectedAiResult
        (SendEnv.mk "u1" "m1" "m2" 10 11 false (.error "boom") (.error "boom")
          (.ok "t") id)
        (Influencer.mk "inf1" "Belle" none "sys" .active false)
        = .error "boom")
    ∧ (∃ u a,
        (send_message
          (SendEnv.mk "u1" "m1" "m2" 10 11 false (.error "boom")
            (.error "boom") (.ok "t") id)
          (World.mk [] [Conversation.mk "c1" "u1" "inf1" []]
            [Influencer.mk "inf1" "Belle" none "sys" .active false])
          "c1"
          (SendMessageRequest.mk "text" (some "hi") none none none
            none)).outcome = .ok 503 u a
        ∧ a.content = some FALLBACK_ERROR_MESSAGE
        ∧ a.token_count = some 0
        ∧ a.role = .assistant
        ∧ u.role = .user
        ∧ u.conversation_id = "c1"
        ∧ u.client_message_id = (SendMessageRequest.mk "text" (some "hi")
            none none none none).client_message_id
        ∧ (send_message
            (SendEnv.mk "u1" "m1" "m2" 10 11 false (.error "boom")
              (.error "boom") (.ok "t") id)
            (World.mk [] [Conversation.mk "c1" "u1" "inf1" []]
              [Influencer.mk "inf1" "Belle" none "sys" .active false])
            "c1"
            (SendMessageRequest.mk "text" (some "hi") none none none
              none)).messages
            = (World.mk [] [Conversation.mk "c1" "u1" "inf1" []]
                [Influencer.mk "inf1" "Belle" none "sys" .active
                  false]).messages ++ [u, a]
        ∧ (send_message
            (SendEnv.mk "u1" "m1" "m2" 10 11 false (.error "boom")
              (.error "boom") (.ok "t") id)
            (World.mk [] [Conversation.mk "c1" "u1" "inf1" []]
              [Influencer.mk "inf1" "Belle" none "sys" .active false])
            "c1"
            (SendMessageRequest.mk "text" (some "hi") none none none
              none)).backgroundTasks = 2) :=
  ⟨by decide, by decide, rfl,
   generation_fallback
     (SendEnv.mk "u1" "m1" "m2" 10 11 false (.error "boom") (.error "boom")
       (.ok "t") id)
     (World.mk [] [Conversation.mk "c1" "u1" "inf1" []]
       [Influencer.mk "inf1" "Belle" none "sys" .active false])
     "c1" (SendMessageRequest.mk "text" (some "hi") none none none none)
     (Conversation.mk "c1" "u1" "inf1" [])
     (Influencer.mk "inf1" "Belle" none "sys" .active false) "boom"
     (by decide) (by decide) rfl rfl (by decide) (by decide) rfl⟩

/-! ## Push-notification truncation -/

theorem takeBytes_sound (s : List Char) :
    ∀ (n : ℕ) (q : List Char), takeBytes s n = some q →
      (∃ r, s = q ++ r) ∧ byteLen q = n := by
  induction s with
  | nil =>
    intro n q h
    cases n with
    | zero =>
      simp only [takeBytes] at h
      injection h with h2
      subst h2
      exact ⟨⟨[], rfl⟩, rfl⟩
    | succ k => simp [takeBytes] at h
  | cons c cs ih =>
    intro n q h
    cases n with
    | zero =>
      simp only [takeBytes] at h
      injection h with h2
      subst h2
      exact ⟨⟨c :: cs, rfl⟩, rfl⟩
    | succ k =>
      simp only [takeBytes] at h
      by_cases hsz : c.utf8Size ≤ k + 1
      · rw [if_pos hsz] at h
        cases hrec : takeBytes cs (k + 1 - c.utf8Size) with
        | none => rw [hrec] at h; simp at h
        | some q2 =>
          rw [hrec] at h
          simp only [Option.map_some'] at h
          injection h with h2
          subst h2
          obtain ⟨⟨r, hr⟩, hlen⟩ := ih (k + 1 - c.utf8Size) q2 hrec
          refine ⟨⟨r, by rw [hr]; rfl⟩, ?_⟩
          simp only [byteLen, List.map_cons, List.sum_cons] at hlen ⊢
          omega
      · rw [if_neg hsz] at h
        exact absurd h (by simp)

theorem takeBytes_ascii_total (s : List Char) :
    ∀ n : ℕ, (∀ c ∈ s, c.utf8Size = 1) → n ≤ byteLen s →
      (takeBytes s n).isSome := by
  induction s with
  | nil =>
    intro n _ hn
    have : n = 0 := by simpa [byteLen] using hn
    subst this
    rfl
  | cons c cs ih =>
    intro n hascii hn
    cases n with
    | zero => rfl
    | succ k =>
      have hc : c.utf8Size = 1 := hascii c (List.mem_cons_self c cs)
      have h1 : c.utf8Size ≤ k + 1 := by omega
      simp only [takeBytes, if_pos h1, hc]
      have hk : k ≤ byteLen cs := by
        simp only [byteLen, List.map_cons, List.sum_cons, hc] at hn
        simp only [byteLen]
        omega
      simpa using ih k (fun x hx => hascii x (List.mem_cons_of_mem c hx)) hk

set_option maxRecDepth 4000 in
/-- C10 counterexample.  The byte-slice `&msg_content[..100]` panics when
byte offset 100 falls inside a multi-byte character: 99 ASCII characters
followed by a 2-byte character (101 bytes in all) has no 100-byte character
boundary, so the preview computation is undefined (`none`). -/
theorem truncatePreview_panics_on_multibyte :
    truncatePreview (List.replicate 99 'a' ++ ['é']) = none := by
  decide

/-- C10 (amended).  The preview computation is total and uses the content
unchanged when it is at most 100 bytes; when it is longer, it is defined
exactly when byte offset 100 is a character boundary — then it is that
100-byte prefix followed by `"..."` — and in particular it is always
defined for all-ASCII content. -/
theorem truncatePreview_amended (s q : List Char) :
    (byteLen s ≤ 100 → truncatePreview s = some s)
    ∧ (byteLen s > 100 → takeBytes s 100 = some q →
        truncatePreview s = some (q ++ ['.', '.', '.'])
        ∧ (∃ r, s = q ++ r) ∧ byteLen q = 100)
    ∧ ((∀ c ∈ s, c.utf8Size = 1) → (truncatePreview s).isSome) := by
  refine ⟨fun hle => ?_, fun hgt htb => ?_, fun hascii => ?_⟩
  · unfold truncatePreview
    rw [if_neg (by omega)]
  · unfold truncatePreview
    rw [if_pos hgt, htb]
    exact ⟨rfl, takeBytes_sound s 100 q htb⟩
  · unfold truncatePreview
    by_cases hgt : byteLen s > 100
    · rw [if_pos hgt]
      have := takeBytes_ascii_total s 100 hascii (by omega)
      cases hrec : takeBytes s 100 with
      | none => rw [hrec] at this; exact absurd this (by simp)
      | some q2 => simp
    · rw [if_neg hgt]
      rfl

set_option maxRecDepth 6000 in
/-- C10 (amended) witness: 101 ASCII characters are truncated to the first
100 plus an ellipsis. -/
theorem truncatePreview_amended_witness :
    (byteLen (List.replicate 101 'a') > 100) ∧
    (takeBytes (List.replicate 101 'a') 100 = some (List.replicate 100 'a')) ∧
    (truncatePreview (List.replicate 101 'a')
      = some (List.replicate 100 'a' ++ ['.', '.', '.'])
     ∧ (∃ r, List.replicate 101 'a' = List.replicate 100 'a' ++ r)
     ∧ byteLen (List.replicate 100 'a') = 100) :=
  ⟨by decide, by decide,
   (truncatePreview_amended (List.replicate 101 'a')
     (List.replicate 100 'a')).2.1 (by decide) (by decide)⟩

end YralChat
